import Mathlib

/-!
Shallow embedding of the CHIP-8 emulator core implemented in `src/js/sketch.js`
(class `Chip8`): machine state, instruction decoder, one-step execution engine,
sprite blit, and ROM loading, together with theorems settling the spec claims.

Modelling conventions, matching the JavaScript semantics of the source:
* `Uint8Array` / `Uint16Array` cells are modelled as `Nat` values reduced
  modulo the element width at every write (`% 256`, `% 65536`).
* Out-of-bounds typed-array reads yield `undefined` in JS; every arithmetic
  use in the interpreter coerces `undefined` to 0, so such reads are modelled
  as 0 (and out-of-bounds typed-array writes, which JS discards, as no-ops).
* `panic(msg)` sets the panic/halt flags, rewinds `PC` by 2 and throws an
  `Error`; no caller in the repository catches it, so the remainder of the
  current `execute()` is abandoned.  We model this by returning the machine
  state exactly as it is at the moment of the throw.
* `Math.floor(Math.random() * 0xff)` (the only nondeterminism) is passed in
  as an explicit argument `rnd` to `execute`.
-/

set_option maxRecDepth 8000

namespace Chip8Emu

/-- Pointwise update of a function, used for typed-array element writes. -/
def upd (f : Nat → Nat) (i v : Nat) : Nat → Nat := fun j => if j = i then v else f j

/-- The machine state of class `Chip8` (constructor fields of `sketch.js`).
`memory` is the 4096-byte heap, `V` the sixteen 8-bit registers, `stack` the
sixteen 16-bit return slots, `frameBuffer` the 64×32 display.  The arrays are
modelled as functions from indices; only the in-range indices are meaningful
and all reads go through the bounds-checked read helpers below. -/
structure Chip8 where
  memory : Nat → Nat
  V : Nat → Nat
  I : Nat
  PC : Nat
  SP : Nat
  stack : Nat → Nat
  frameBuffer : Nat → Nat
  halt : Bool
  panicState : Bool

/-- Read of `mem[a]` on a 4096-element `Uint8Array`: out of bounds gives
`undefined`, coerced to 0 by every arithmetic use in the source. -/
def memReadF (mem : Nat → Nat) (a : Nat) : Nat := if a < 4096 then mem a else 0

/-- Read of `frameBuffer[off]` on the 2048-element `Uint8Array`. -/
def fbReadF (fb : Nat → Nat) (off : Nat) : Nat := if off < 2048 then fb off else 0

/-- Write to `frameBuffer[off]`: JS discards out-of-bounds typed-array writes
and truncates stored values to 8 bits. -/
def fbWriteF (fb : Nat → Nat) (off v : Nat) : Nat → Nat :=
  if off < 2048 then upd fb off (v % 256) else fb

def memRead (s : Chip8) (a : Nat) : Nat := memReadF s.memory a

def fbRead (s : Chip8) (off : Nat) : Nat := fbReadF s.frameBuffer off

def fbWrite (s : Chip8) (off v : Nat) : Chip8 :=
  { s with frameBuffer := fbWriteF s.frameBuffer off v }

/-- Read of `stack[i]` on the 16-element `Uint16Array`.  The only read site is
`RET` after its `SP > 0` check; an out-of-bounds index (reachable only at
`SP = 16`) yields `undefined` in JS, modelled as 0 here (no claim exercises
that corner). -/
def stackRead (s : Chip8) (i : Nat) : Nat := if i < 16 then s.stack i else 0

/-- Write `V[i] = v` on the `Uint8Array` register file (stores `v mod 256`). -/
def setV (s : Chip8) (i v : Nat) : Chip8 := { s with V := upd s.V i (v % 256) }

/-- JS `ToUint8` conversion of a possibly negative integer result, as performed
by a `Uint8Array` store (`-=` on a register can go negative before wrapping). -/
def toUint8 (z : Int) : Nat := (z % 256).toNat

/-- The decoded instruction classifications produced by `Chip8.decode`
(the `mnemonic` strings of the source). -/
inductive Mnemonic where
  | SYS | CLS | RET | JP | CALL | SE | SNE | LD | ADD
  | OR | AND | XOR | SUB | SHR | SUBN | SHL | RND | DRW
  | ZERO | INVALID
deriving DecidableEq

/-- Strict equality (`===`) between a JS Number and the Boolean `true`: always
false, whatever the number.  The first `case` of `Chip8.decode` reads
`opcodes[0] & (0xf0 === 0x0)`: the inner comparison is `false`, coerced to the
number 0, so the case value is the number `opcodes[0] & 0`, which is never
`===` to the `switch (true)` discriminant.  The `SYS` branch of the decoder is
therefore unreachable in the source, and is modelled by this constant. -/
def jsNumEqBoolTrue (n : Nat) : Bool := false

/-- `Chip8.decode`: classify the two fetched bytes `(b0, b1)`.  The cases are
in source order; each `case` of the JS `switch (true)` becomes one `if`. -/
def decode (b0 b1 : Nat) : Mnemonic :=
  if jsNumEqBoolTrue (b0 &&& 0) then .SYS
  else if b0 = 0x0 ∧ b1 = 0xe0 then .CLS
  else if b0 = 0x0 ∧ b1 = 0xee then .RET
  else if b0 &&& 0xf0 = 0x10 then .JP
  else if b0 &&& 0xf0 = 0x20 then .CALL
  else if b0 &&& 0xf0 = 0x30 then .SE
  else if b0 &&& 0xf0 = 0x40 then .SNE
  else if b0 &&& 0xf0 = 0x50 ∧ b1 &&& 0x0f = 0x0 then .SE
  else if b0 &&& 0xf0 = 0x60 then .LD
  else if b0 &&& 0xf0 = 0x70 then .ADD
  else if b0 &&& 0xf0 = 0x80 ∧ b1 &&& 0x0f = 0x0 then .LD
  else if b0 &&& 0xf0 = 0x80 ∧ b1 &&& 0x0f = 0x1 then .OR
  else if b0 &&& 0xf0 = 0x80 ∧ b1 &&& 0x0f = 0x2 then .AND
  else if b0 &&& 0xf0 = 0x80 ∧ b1 &&& 0x0f = 0x3 then .XOR
  else if b0 &&& 0xf0 = 0x80 ∧ b1 &&& 0x0f = 0x4 then .ADD
  else if b0 &&& 0xf0 = 0x80 ∧ b1 &&& 0x0f = 0x5 then .SUB
  else if b0 &&& 0xf0 = 0x80 ∧ b1 &&& 0x0f = 0x6 then .SHR
  else if b0 &&& 0xf0 = 0x80 ∧ b1 &&& 0x0f = 0x7 then .SUBN
  else if b0 &&& 0xf0 = 0x80 ∧ b1 &&& 0x0f = 0xe then .SHL
  else if b0 &&& 0xf0 = 0x90 ∧ b1 &&& 0x0f = 0x0 then .SNE
  else if b0 &&& 0xf0 = 0xa0 then .LD
  else if b0 &&& 0xf0 = 0xb0 then .JP
  else if b0 &&& 0xf0 = 0xc0 then .RND
  else if b0 &&& 0xf0 = 0xd0 then .DRW
  else if b0 = 0x0 ∧ b1 = 0x0 then .ZERO
  else .INVALID

/-- `Chip8.panic`: set the panic and halt flags and rewind `PC` by 2.  The
thrown `Error` (which aborts the rest of the current `execute()`) is modelled
by the callers returning this state immediately. -/
def panic (s : Chip8) : Chip8 :=
  { s with panicState := true, halt := true, PC := s.PC - 2 }

/-- The collision test `prevPixel === 1 && newPixel === 1` of the blit loop. -/
def drwHit (prev npx : Nat) : Bool := prev == 1 && npx == 1

/-- One inner iteration of the `DRW` blit loops of `Chip8.execute`:
`p = (i, e)` where `i` is the sprite row and `e` the bit index (7 down to 0).
Reads the sprite bit from `memory[I + i]`, XORs it into the framebuffer at the
linear, unclamped offset, and sets `V[0xF] := 1` on an erase collision. -/
def drwStep (Vx Vy : Nat) (s : Chip8) (p : Nat × Nat) : Chip8 :=
  let off := Vy * 64 + Vx + (7 - p.2) + p.1 * 64
  let prev := fbRead s off
  let npx : Nat := if memRead s (s.I + p.1) &&& 2 ^ p.2 = 2 ^ p.2 then 1 else 0
  let s1 := fbWrite s off (prev ^^^ npx)
  if drwHit prev npx then setV s1 15 1 else s1

/-- The iteration sequence of the two nested `DRW` loops of the source:
rows `i = 0 .. n-1`, and for each row bits `e = 7 down to 0`. -/
def drwPairs (n : Nat) : List (Nat × Nat) :=
  (List.range n).flatMap (fun i => [7, 6, 5, 4, 3, 2, 1, 0].map (fun e => (i, e)))

/-- The complete `DRW` blit: fold `drwStep` over both loops. -/
def drwRun (Vx Vy n : Nat) (s : Chip8) : Chip8 :=
  (drwPairs n).foldl (drwStep Vx Vy) s

/-- Ghost companion of `drwStep` acting only on the framebuffer together with
a collision flag; used to state what the collision flag of a draw is. -/
def drwStepFB (Vx Vy : Nat) (mem : Nat → Nat) (I : Nat)
    (t : (Nat → Nat) × Bool) (p : Nat × Nat) : (Nat → Nat) × Bool :=
  let off := Vy * 64 + Vx + (7 - p.2) + p.1 * 64
  let prev := fbReadF t.1 off
  let npx : Nat := if memReadF mem (I + p.1) &&& 2 ^ p.2 = 2 ^ p.2 then 1 else 0
  (fbWriteF t.1 off (prev ^^^ npx), drwHit prev npx || t.2)

/-- Whether the sequential XOR blit of `DRW Vx,Vy,n` draws at least one set
sprite bit onto a pixel that is set at the moment the bit is drawn (i.e.
erases it) — the event the collision flag reports. -/
def drwCollides (mem : Nat → Nat) (I : Nat) (fb : Nat → Nat) (Vx Vy n : Nat) : Bool :=
  ((drwPairs n).foldl (drwStepFB Vx Vy mem I) (fb, false)).2

/-- The body of `Chip8.execute` after the fetch: dispatch on the decoded
mnemonic of the two fetched bytes.  `s` is the post-fetch state (`PC` already
advanced by 2), `rnd` the value of `Math.floor(Math.random() * 0xff)`. -/
def execOp (rnd b0 b1 : Nat) (s : Chip8) : Chip8 :=
  match decode b0 b1 with
  | .SYS => s
  | .CLS => { s with frameBuffer := fun _ => 0 }
  | .RET =>
      if s.SP = 0 then panic s
      else { s with PC := stackRead s s.SP, SP := s.SP - 1 }
  | .JP =>
      if b0 &&& 0xf0 = 0x10 then
        if ((b0 &&& 0x0f) <<< 8) + b1 < 0x200 then panic s
        else if ((b0 &&& 0x0f) <<< 8) + b1 ≥ 4096 then panic s
        else { s with PC := ((b0 &&& 0x0f) <<< 8) + b1 }
      else if b0 &&& 0xf0 = 0xb0 then
        if ((b0 &&& 0x0f) <<< 8) + b1 < 0x200 then panic s
        else if ((b0 &&& 0x0f) <<< 8) + b1 ≥ 4096 then panic s
        else { s with PC := ((b0 &&& 0x0f) <<< 8) + b1 + s.V 0 }
      else s
  | .CALL =>
      if ((b0 &&& 0x0f) <<< 8) + b1 < 0x200 then panic s
      else if s.SP ≥ 16 then panic s
      else { s with stack := upd s.stack s.SP (s.PC % 65536),
                    SP := s.SP + 1,
                    PC := ((b0 &&& 0x0f) <<< 8) + b1 }
  | .SE =>
      if b0 &&& 0xf0 = 0x30 then
        if s.V (b0 &&& 0x0f) = b1 then { s with PC := s.PC + 2 } else s
      else if b0 &&& 0xf0 = 0x50 then
        if s.V (b0 &&& 0x0f) = s.V ((b1 &&& 0xf0) >>> 0x4) then
          { s with PC := s.PC + 2 }
        else s
      else s
  | .SNE =>
      if b0 &&& 0xf0 = 0x90 ∧ b1 &&& 0x0f = 0x0 then
        if s.V (b0 &&& 0x0f) ≠ s.V ((b1 &&& 0xf0) >>> 0x4) then
          { s with PC := s.PC + 2 }
        else s
      else if b0 &&& 0xf0 = 0x40 then
        if s.V (b0 &&& 0x0f) ≠ b1 then { s with PC := s.PC + 2 } else s
      else s
  | .LD =>
      if b0 &&& 0xf0 = 0x60 then
        if b0 &&& 0x0f = 0xf then panic s
        else setV s (b0 &&& 0x0f) b1
      else if b0 &&& 0xf0 = 0xa0 then
        { s with I := ((b0 &&& 0x0f) <<< 8) + b1 }
      else if b0 &&& 0xf0 = 0x80 ∧ b1 &&& 0x0f = 0x0 then
        if b0 &&& 0x0f = 0xf then panic s
        else setV s (b0 &&& 0x0f) (s.V ((b1 &&& 0xf0) >>> 0x4))
      else s
  | .ADD =>
      if b0 &&& 0x0f = 0xf then panic s
      else if b0 &&& 0xf0 = 0x70 then
        setV s (b0 &&& 0x0f) (s.V (b0 &&& 0x0f) + b1)
      else if b0 &&& 0xf0 = 0x80 ∧ b1 &&& 0x0f = 0x4 then
        setV (setV s (b0 &&& 0x0f)
                ((s.V (b0 &&& 0x0f) + s.V ((b1 &&& 0xf0) >>> 0x4)) &&& 0xff))
          15
          (if s.V (b0 &&& 0x0f) + s.V ((b1 &&& 0xf0) >>> 0x4) > 0xff then 1 else 0)
      else s
  | .OR =>
      if b0 &&& 0x0f = 0xf then panic s
      else setV s (b0 &&& 0x0f) (s.V (b0 &&& 0x0f) ||| s.V ((b1 &&& 0xf0) >>> 0x4))
  | .AND =>
      if b0 &&& 0x0f = 0xf then panic s
      else setV s (b0 &&& 0x0f) (s.V (b0 &&& 0x0f) &&& s.V ((b1 &&& 0xf0) >>> 0x4))
  | .XOR =>
      if b0 &&& 0x0f = 0xf then panic s
      else setV s (b0 &&& 0x0f) (s.V (b0 &&& 0x0f) ^^^ s.V ((b1 &&& 0xf0) >>> 0x4))
  | .SUB =>
      if b0 &&& 0x0f = 0xf then panic s
      else
        let s1 := setV s 15
          (if s.V (b0 &&& 0x0f) > s.V ((b1 &&& 0xf0) >>> 0x4) then 1 else 0)
        setV s1 (b0 &&& 0x0f)
          (toUint8 ((s1.V (b0 &&& 0x0f) : Int) - (s1.V ((b1 &&& 0xf0) >>> 0x4) : Int)))
  | .SHR =>
      if b0 &&& 0x0f = 0xf then panic s
      else
        let s1 := setV s 15 (s.V (b0 &&& 0x0f) &&& 0x1)
        setV s1 (b0 &&& 0x0f) (s1.V (b0 &&& 0x0f) >>> 1)
  | .SUBN =>
      if b0 &&& 0x0f = 0xf then panic s
      else
        let s1 := setV s 15
          (if s.V ((b1 &&& 0xf0) >>> 0x4) > s.V (b0 &&& 0x0f) then 1 else 0)
        setV s1 (b0 &&& 0x0f)
          (toUint8 ((s1.V ((b1 &&& 0xf0) >>> 0x4) : Int) - (s1.V (b0 &&& 0x0f) : Int)))
  | .SHL =>
      if b0 &&& 0x0f = 0xf then panic s
      else
        let s1 := setV s 15 (s.V (b0 &&& 0x0f) >>> 7)
        setV s1 (b0 &&& 0x0f) (s1.V (b0 &&& 0x0f) <<< 1)
  | .RND =>
      if b0 &&& 0x0f = 0xf then panic s
      else setV s (b0 &&& 0x0f) (rnd &&& b1)
  | .DRW =>
      drwRun (s.V (b0 &&& 0x0f)) (s.V ((b1 &&& 0xf0) >>> 0x4)) (b1 &&& 0x0f) s
  | .ZERO =>
      -- the source `case "ZERO"` sets both flags and then falls through
      -- (no `break`) into the `default` branch, which calls `panic`
      panic { s with halt := true, panicState := true }
  | .INVALID => panic s

/-- `Chip8.execute`: no-op when halted or panicked, otherwise fetch the two
bytes at `PC` (advancing `PC` by 2) and dispatch on the decoded mnemonic. -/
def execute (rnd : Nat) (s : Chip8) : Chip8 :=
  if s.halt || s.panicState then s
  else execOp rnd (memRead s s.PC) (memRead s (s.PC + 1)) { s with PC := s.PC + 2 }

/-- The 16×5-byte glyph table installed by the constructor at `0x50`. -/
def fontData : List Nat :=
  [0xf0, 0x90, 0x90, 0x90, 0xf0,
   0x20, 0x60, 0x20, 0x20, 0x70,
   0xf0, 0x10, 0xf0, 0x80, 0xf0,
   0xf0, 0x10, 0xf0, 0x10, 0xf0,
   0x90, 0x90, 0xf0, 0x10, 0x10,
   0xf0, 0x80, 0xf0, 0x10, 0xf0,
   0xf0, 0x80, 0xf0, 0x90, 0xf0,
   0xf0, 0x10, 0x20, 0x40, 0x40,
   0xf0, 0x90, 0xf0, 0x90, 0xf0,
   0xf0, 0x90, 0xf0, 0x10, 0xf0,
   0xf0, 0x90, 0xf0, 0x90, 0x90,
   0xe0, 0x90, 0xe0, 0x90, 0xe0,
   0xf0, 0x80, 0x80, 0x80, 0xf0,
   0xe0, 0x90, 0x90, 0x90, 0xe0,
   0xf0, 0x80, 0xf0, 0x80, 0xf0,
   0xf0, 0x80, 0xf0, 0x80, 0x80]

/-- A freshly constructed machine (`new Chip8()`): zeroed memory except for the
font table at `0x50`–`0x9F`, zero registers, `PC = 0x200`, not halted. -/
def chip8Init : Chip8 where
  memory := fun a => if 0x50 ≤ a ∧ a < 0xa0 then fontData.getD (a - 0x50) 0 else 0
  V := fun _ => 0
  I := 0
  PC := 0x200
  SP := 0
  stack := fun _ => 0
  frameBuffer := fun _ => 0
  halt := false
  panicState := false

/-- The memory resulting from a successful `loadROM`: the zero-fill of
`0x200..0xFFF` followed by the copy of the image at `0x200` (the copy region
shadows the fill; copied values are truncated to 8 bits by the store). -/
def loadROMMem (mem : Nat → Nat) (rom : List Nat) : Nat → Nat :=
  fun a =>
    if 0x200 ≤ a ∧ a < 0x200 + rom.length then rom.getD (a - 0x200) 0 % 256
    else if 0x200 ≤ a ∧ a < 4096 then 0
    else mem a

/-- `Chip8.loadROM`: zero-fill `0x200..0xFFF`, then `memory.set(rom, 0x200)`.
`TypedArray.prototype.set` throws a `RangeError` when the source does not fit
(`0x200 + rom.length > 4096`) without copying anything; the zero-fill has
already happened at that point.  `Except.error` carries the state at the
throw. -/
def loadROM (s : Chip8) (rom : List Nat) : Except Chip8 Chip8 :=
  if rom.length ≤ 4096 - 0x200 then
    .ok { s with memory := loadROMMem s.memory rom }
  else
    .error { s with memory := fun a => if 0x200 ≤ a ∧ a < 4096 then 0 else s.memory a }

/-- Whether `loadROM` returns normally (`true`) or throws (`false`). -/
def loadOk (s : Chip8) (rom : List Nat) : Bool :=
  match loadROM s rom with
  | .ok _ => true
  | .error _ => false

/-- Extract the machine from a `loadROM` result (normal or thrown). -/
def loadedState (x : Except Chip8 Chip8) : Chip8 :=
  match x with
  | .ok t => t
  | .error t => t

/-- The encodings listed in the specification's instruction table (§4.1):
the high-nibble pattern of each supported mnemonic together with the
secondary discriminator nibble where the table requires one.  Everything
outside this table is claimed to decode as unrecognized. -/
def knownEncoding (b0 b1 : Nat) : Bool :=
  (b0 &&& 0xf0 == 0x00) || (b0 &&& 0xf0 == 0x10) || (b0 &&& 0xf0 == 0x20) ||
  (b0 &&& 0xf0 == 0x30) || (b0 &&& 0xf0 == 0x40) ||
  ((b0 &&& 0xf0 == 0x50) && (b1 &&& 0x0f == 0x0)) ||
  (b0 &&& 0xf0 == 0x60) || (b0 &&& 0xf0 == 0x70) ||
  ((b0 &&& 0xf0 == 0x80) &&
    ((b1 &&& 0x0f == 0x0) || (b1 &&& 0x0f == 0x1) || (b1 &&& 0x0f == 0x2) ||
     (b1 &&& 0x0f == 0x3) || (b1 &&& 0x0f == 0x4) || (b1 &&& 0x0f == 0x5) ||
     (b1 &&& 0x0f == 0x6) || (b1 &&& 0x0f == 0x7) || (b1 &&& 0x0f == 0xe))) ||
  ((b0 &&& 0xf0 == 0x90) && (b1 &&& 0x0f == 0x0)) ||
  (b0 &&& 0xf0 == 0xa0) || (b0 &&& 0xf0 == 0xb0) ||
  (b0 &&& 0xf0 == 0xc0) || (b0 &&& 0xf0 == 0xd0)

/-- Fresh machine with `CALL 0x300` (bytes `0x23 0x00`) at `0x200` and `RET`
(bytes `0x00 0xEE`) at `0x300`. -/
def c1s0 : Chip8 :=
  { chip8Init with
    memory := upd (upd (upd (upd chip8Init.memory 0x200 0x23) 0x201 0x00) 0x300 0x00)
                0x301 0xee }

/-- Fresh machine with the single opcode `0x0123` (`SYS 0x123`) loaded. -/
def c2s0 : Chip8 := loadedState (loadROM chip8Init [0x01, 0x23])

/-- Fresh machine with `LD V0,0x02 ; JP V0,0xFFF` loaded. -/
def c4s0 : Chip8 := loadedState (loadROM chip8Init [0x60, 0x02, 0xbf, 0xff])

/-- Fresh machine with the single opcode `0x6F05` (`LD VF,0x05`) loaded. -/
def c5s : Chip8 := loadedState (loadROM chip8Init [0x6f, 0x05])

/-- `ADD V0,V1` (`0x8014`) with `V0 = 0xFF`, `V1 = 0x01`. -/
def c6a : Chip8 :=
  { loadedState (loadROM chip8Init [0x80, 0x14]) with
    V := fun i => if i = 0 then 0xff else if i = 1 then 1 else 0 }

/-- `ADD V0,V1` (`0x8014`) with `V0 = 0x01`, `V1 = 0x01`. -/
def c6b : Chip8 :=
  { loadedState (loadROM chip8Init [0x80, 0x14]) with
    V := fun i => if i = 0 then 1 else if i = 1 then 1 else 0 }

/-- `SUB V0,VF` (`0x80F5`) with `V0 = 5` and `VF = 3`. -/
def c7s : Chip8 :=
  { loadedState (loadROM chip8Init [0x80, 0xf5]) with
    V := fun i => if i = 0 then 5 else if i = 15 then 3 else 0 }

/-- `DRW V0,V1,1` (`0xD011`) pointing `I` at empty memory, with `VF = 9`. -/
def c8s : Chip8 :=
  { loadedState (loadROM chip8Init [0xd0, 0x11]) with
    I := 0x300, V := fun i => if i = 15 then 9 else 0 }

/-! Helper lemmas about the state primitives. -/

@[simp] lemma upd_same (f : Nat → Nat) (i v : Nat) : upd f i v i = v := by
  simp [upd]

lemma upd_ne (f : Nat → Nat) (i v j : Nat) (h : j ≠ i) : upd f i v j = f j := by
  simp [upd, h]

@[simp] lemma setV_memory (s : Chip8) (i v : Nat) : (setV s i v).memory = s.memory := rfl

@[simp] lemma setV_I (s : Chip8) (i v : Nat) : (setV s i v).I = s.I := rfl

@[simp] lemma setV_PC (s : Chip8) (i v : Nat) : (setV s i v).PC = s.PC := rfl

@[simp] lemma setV_SP (s : Chip8) (i v : Nat) : (setV s i v).SP = s.SP := rfl

@[simp] lemma setV_stack (s : Chip8) (i v : Nat) : (setV s i v).stack = s.stack := rfl

@[simp] lemma setV_frameBuffer (s : Chip8) (i v : Nat) :
    (setV s i v).frameBuffer = s.frameBuffer := rfl

@[simp] lemma setV_halt (s : Chip8) (i v : Nat) : (setV s i v).halt = s.halt := rfl

@[simp] lemma setV_panicState (s : Chip8) (i v : Nat) :
    (setV s i v).panicState = s.panicState := rfl

@[simp] lemma setV_V_same (s : Chip8) (i v : Nat) : (setV s i v).V i = v % 256 := by
  simp [setV]

lemma setV_V_ne (s : Chip8) (i v j : Nat) (h : j ≠ i) : (setV s i v).V j = s.V j := by
  simp [setV, upd, h]

@[simp] lemma fbWrite_memory (s : Chip8) (o v : Nat) : (fbWrite s o v).memory = s.memory := rfl

@[simp] lemma fbWrite_V (s : Chip8) (o v : Nat) : (fbWrite s o v).V = s.V := rfl

@[simp] lemma fbWrite_I (s : Chip8) (o v : Nat) : (fbWrite s o v).I = s.I := rfl

@[simp] lemma fbWrite_PC (s : Chip8) (o v : Nat) : (fbWrite s o v).PC = s.PC := rfl

@[simp] lemma fbWrite_SP (s : Chip8) (o v : Nat) : (fbWrite s o v).SP = s.SP := rfl

@[simp] lemma fbWrite_stack (s : Chip8) (o v : Nat) : (fbWrite s o v).stack = s.stack := rfl

@[simp] lemma fbWrite_halt (s : Chip8) (o v : Nat) : (fbWrite s o v).halt = s.halt := rfl

@[simp] lemma fbWrite_panicState (s : Chip8) (o v : Nat) :
    (fbWrite s o v).panicState = s.panicState := rfl

@[simp] lemma fbWrite_frameBuffer (s : Chip8) (o v : Nat) :
    (fbWrite s o v).frameBuffer = fbWriteF s.frameBuffer o v := rfl

lemma toUint8_lt (z : Int) : toUint8 z < 256 := by
  unfold toUint8; omega

lemma toUint8_mod (z : Int) : toUint8 z % 256 = toUint8 z :=
  Nat.mod_eq_of_lt (toUint8_lt z)

lemma and255_eq_mod (n : Nat) : n &&& 255 = n % 256 := by
  simpa using Nat.and_pow_two_sub_one_eq_mod n 8

/-- When the machine is running, `execute` is fetch followed by dispatch. -/
lemma execute_running (rnd : Nat) (s : Chip8)
    (h1 : s.halt = false) (h2 : s.panicState = false) :
    execute rnd s =
      execOp rnd (memRead s s.PC) (memRead s (s.PC + 1)) { s with PC := s.PC + 2 } := by
  simp [execute, h1, h2]

/-- C1: on the failing input — a fresh machine with `CALL 0x300` at `0x200` and
`RET` at `0x300` — the `CALL` pushes the return address `0x202` into stack slot
0 and jumps, but the subsequent `RET` restores `PC` from stack slot 1 (the
post-increment/pre-decrement indices are asymmetric), leaving `PC = 0x000`
instead of the claimed `0x202`. -/
theorem C1_call_ret_eval :
    (execute 0 c1s0).PC = 0x300 ∧ (execute 0 c1s0).SP = 1 ∧
    (execute 0 c1s0).stack 0 = 0x202 ∧
    (execute 0 (execute 0 c1s0)).PC = 0 ∧
    (execute 0 (execute 0 c1s0)).PC ≠ 0x202 := by
  decide

/-- C2: on the failing input `0x0123` (`SYS 0x123`), the decoder's first case
is the precedence slip `opcodes[0] & (0xf0 === 0x0)`, which never matches, so
the opcode decodes as `INVALID` and executing it panics in place instead of
being an ignored no-op that advances `PC` by 2. -/
theorem C2_sys_decodes_invalid_and_panics :
    decode 0x01 0x23 = Mnemonic.INVALID ∧
    (execute 0 c2s0).panicState = true ∧ (execute 0 c2s0).halt = true ∧
    (execute 0 c2s0).PC = 0x200 := by
  decide

/-- C4: on the failing input — `LD V0,0x02` then `JP V0,0xFFF` from a fresh
machine — the `JP V0` bounds guards check the literal `nnn = 0xFFF` only, and
the machine ends the second step still running with `PC = 0x1001 > 0xFFF`,
violating the claimed invariant. -/
theorem C4_pc_escapes_addressable_range :
    (execute 0 (execute 0 c4s0)).PC = 0x1001 ∧
    (execute 0 (execute 0 c4s0)).halt = false ∧
    (execute 0 (execute 0 c4s0)).panicState = false := by
  decide

/-- C9: `execute` is a complete no-op whenever the machine is halted or
panicked; and executing the all-zero opcode `0x0000` in the running state
yields exactly the same machine with both the halt and panic flags forced
(the fetch advance of `PC` is undone by the rewind in the fall-through
`panic`, so `PC` is net unchanged). -/
theorem C9_zero_terminator_halts_and_step_is_idempotent (rnd : Nat) (s : Chip8) :
    (s.halt = true ∨ s.panicState = true → execute rnd s = s) ∧
    (s.halt = false → s.panicState = false → memRead s s.PC = 0 →
      memRead s (s.PC + 1) = 0 →
      execute rnd s = { s with halt := true, panicState := true }) := by
  constructor
  · rintro (h | h) <;> simp [execute, h]
  · intro h1 h2 hb0 hb1
    rw [execute_running rnd s h1 h2, hb0, hb1]
    have hz : decode 0 0 = Mnemonic.ZERO := by decide
    unfold execOp
    rw [hz]
    simp [panic]

/-- Witness for C9: a halted fresh machine steps to itself, and a running
fresh machine (whose memory at `0x200` is the all-zero terminator) steps to
the same machine with both flags set. -/
theorem C9_witness :
    execute 0 { chip8Init with halt := true } = { chip8Init with halt := true } ∧
    execute 0 chip8Init = { chip8Init with halt := true, panicState := true } :=
  ⟨(C9_zero_terminator_halts_and_step_is_idempotent 0 _).1 (Or.inl rfl),
   (C9_zero_terminator_halts_and_step_is_idempotent 0 chip8Init).2 rfl rfl
     (by decide) (by decide)⟩

/-- C10 counterexample: an image of `0xE01` bytes is not truncated at the
memory boundary — `TypedArray.prototype.set` throws a `RangeError`, so the
load is rejected. -/
theorem C10_counterexample_oversized_rom_throws :
    loadOk chip8Init (List.replicate 0xe01 0) = false := by
  unfold loadOk loadROM
  rw [List.length_replicate, if_neg (by omega)]

/-- C10 (amended): `loadROM` zero-fills `0x200..0xFFF` and then copies the
image at `0x200`, leaving `0x000..0x1FF` untouched, provided the image fits
(length at most `0xE00`); a longer image makes the copy throw instead of
being truncated. -/
theorem C10_loadROM_fill_then_copy (s : Chip8) (rom : List Nat) (a : Nat) :
    (rom.length ≤ 0xe00 →
      loadROM s rom = .ok { s with memory := loadROMMem s.memory rom } ∧
      (a < 0x200 → loadROMMem s.memory rom a = s.memory a) ∧
      (0x200 ≤ a → a < 0x200 + rom.length →
        loadROMMem s.memory rom a = rom.getD (a - 0x200) 0 % 256) ∧
      (0x200 + rom.length ≤ a → a < 4096 → loadROMMem s.memory rom a = 0)) ∧
    (0xe00 < rom.length → loadOk s rom = false) := by
  refine ⟨fun hlen => ⟨?_, ?_, ?_, ?_⟩, fun hlen => ?_⟩
  · rw [loadROM, if_pos (by omega)]
  · intro h
    unfold loadROMMem
    rw [if_neg (by omega), if_neg (by omega)]
  · intro h1 h2
    unfold loadROMMem
    rw [if_pos ⟨h1, h2⟩]
  · intro h1 h2
    unfold loadROMMem
    rw [if_neg (by omega), if_pos (by omega)]
  · unfold loadOk loadROM
    rw [if_neg (by omega)]

/-- Witness for C10: loading the 3-byte image `[1, 2, 3]` into a fresh machine
succeeds, the byte at `0x201` reads back as 2, the font byte at `0x50` is
untouched, and the tail of the program area is zero. -/
theorem C10_witness :
    loadROM chip8Init [1, 2, 3] =
      .ok { chip8Init with memory := loadROMMem chip8Init.memory [1, 2, 3] } ∧
    loadROMMem chip8Init.memory [1, 2, 3] 0x201 = 2 ∧
    loadROMMem chip8Init.memory [1, 2, 3] 0x50 = 0xf0 ∧
    loadROMMem chip8Init.memory [1, 2, 3] 0x300 = 0 := by
  have h := C10_loadROM_fill_then_copy chip8Init [1, 2, 3] 0x201
  have h2 := C10_loadROM_fill_then_copy chip8Init [1, 2, 3] 0x50
  have h3 := C10_loadROM_fill_then_copy chip8Init [1, 2, 3] 0x300
  refine ⟨(h.1 (by decide)).1, ?_, ?_, ?_⟩
  · exact (((h.1 (by decide)).2.2.1 (by decide) (by decide)).trans (by decide))
  · exact (((h2.1 (by decide)).2.1 (by decide)).trans (by decide))
  · exact ((h3.1 (by decide)).2.2.2 (by decide) (by decide))

/-- Bytes matching the `8xy4` pattern decode to the register-register `ADD`. -/
lemma decode_add8 (b0 b1 : Nat) (hhi : b0 &&& 0xf0 = 0x80) (hlo : b1 &&& 0x0f = 0x4) :
    decode b0 b1 = Mnemonic.ADD := by
  have h0 : b0 ≠ 0 := fun h => by subst h; simp at hhi
  simp [decode, jsNumEqBoolTrue, h0, hhi, hlo]

/-- Bytes matching the `8xy5` pattern decode to `SUB`. -/
lemma decode_sub8 (b0 b1 : Nat) (hhi : b0 &&& 0xf0 = 0x80) (hlo : b1 &&& 0x0f = 0x5) :
    decode b0 b1 = Mnemonic.SUB := by
  have h0 : b0 ≠ 0 := fun h => by subst h; simp at hhi
  simp [decode, jsNumEqBoolTrue, h0, hhi, hlo]

/-- Bytes matching the `Dxyn` pattern decode to `DRW`. -/
lemma decode_drw (b0 b1 : Nat) (hhi : b0 &&& 0xf0 = 0xd0) :
    decode b0 b1 = Mnemonic.DRW := by
  have h0 : b0 ≠ 0 := fun h => by subst h; simp at hhi
  simp [decode, jsNumEqBoolTrue, h0, hhi]

/-- Dispatch equation of `execOp` for an instruction decoding to `ADD`. -/
lemma execOp_eq_ADD (rnd b0 b1 : Nat) (s : Chip8) (h : decode b0 b1 = Mnemonic.ADD) :
    execOp rnd b0 b1 s =
      if b0 &&& 0x0f = 0xf then panic s
      else if b0 &&& 0xf0 = 0x70 then
        setV s (b0 &&& 0x0f) (s.V (b0 &&& 0x0f) + b1)
      else if b0 &&& 0xf0 = 0x80 ∧ b1 &&& 0x0f = 0x4 then
        setV (setV s (b0 &&& 0x0f)
                ((s.V (b0 &&& 0x0f) + s.V ((b1 &&& 0xf0) >>> 0x4)) &&& 0xff))
          15
          (if s.V (b0 &&& 0x0f) + s.V ((b1 &&& 0xf0) >>> 0x4) > 0xff then 1 else 0)
      else s := by
  unfold execOp
  rw [h]

/-- Dispatch equation of `execOp` for an instruction decoding to `SUB`. -/
lemma execOp_eq_SUB (rnd b0 b1 : Nat) (s : Chip8) (h : decode b0 b1 = Mnemonic.SUB) :
    execOp rnd b0 b1 s =
      if b0 &&& 0x0f = 0xf then panic s
      else
        setV (setV s 15
            (if s.V (b0 &&& 0x0f) > s.V ((b1 &&& 0xf0) >>> 0x4) then 1 else 0))
          (b0 &&& 0x0f)
          (toUint8
            (((setV s 15
                (if s.V (b0 &&& 0x0f) > s.V ((b1 &&& 0xf0) >>> 0x4) then 1 else 0)).V
                  (b0 &&& 0x0f) : Int) -
              ((setV s 15
                (if s.V (b0 &&& 0x0f) > s.V ((b1 &&& 0xf0) >>> 0x4) then 1 else 0)).V
                  ((b1 &&& 0xf0) >>> 0x4) : Int))) := by
  unfold execOp
  rw [h]

/-- Dispatch equation of `execOp` for an instruction decoding to `DRW`. -/
lemma execOp_eq_DRW (rnd b0 b1 : Nat) (s : Chip8) (h : decode b0 b1 = Mnemonic.DRW) :
    execOp rnd b0 b1 s =
      drwRun (s.V (b0 &&& 0x0f)) (s.V ((b1 &&& 0xf0) >>> 0x4)) (b1 &&& 0x0f) s := by
  unfold execOp
  rw [h]

/-- C6: executing `ADD Vx,Vy` (`8xy4`) with destination `x ≠ 0xF` stores the
8-bit wrapped sum into `Vx`, sets `VF` to 1 exactly when the unwrapped sum
exceeds 255 (0 otherwise), and advances `PC` by 2. -/
theorem C6_add_wraps_and_sets_carry (rnd : Nat) (s : Chip8) (b0 b1 : Nat)
    (h1 : s.halt = false) (h2 : s.panicState = false)
    (hb0 : memRead s s.PC = b0) (hb1 : memRead s (s.PC + 1) = b1)
    (hhi : b0 &&& 0xf0 = 0x80) (hlo : b1 &&& 0x0f = 0x4) (hx : b0 &&& 0x0f ≠ 0xf) :
    (execute rnd s).V (b0 &&& 0x0f) =
      (s.V (b0 &&& 0x0f) + s.V ((b1 &&& 0xf0) >>> 0x4)) % 256 ∧
    (execute rnd s).V 0xf =
      (if s.V (b0 &&& 0x0f) + s.V ((b1 &&& 0xf0) >>> 0x4) > 0xff then 1 else 0) ∧
    (execute rnd s).PC = s.PC + 2 := by
  have hne : b0 &&& 0xf0 ≠ 0x70 := by rw [hhi]; decide
  rw [execute_running rnd s h1 h2, hb0, hb1,
    execOp_eq_ADD rnd b0 b1 _ (decode_add8 b0 b1 hhi hlo),
    if_neg hx, if_neg hne, if_pos ⟨hhi, hlo⟩]
  refine ⟨?_, ?_, ?_⟩
  · rw [setV_V_ne _ _ _ _ hx, setV_V_same]
    show ((s.V (b0 &&& 0x0f) + s.V ((b1 &&& 0xf0) >>> 0x4)) &&& 255) % 256 = _
    rw [and255_eq_mod]
    omega
  · rw [setV_V_same]
    split <;> rfl
  · simp

/-- C7 counterexample: `SUB V0,VF` (`0x80F5`) with `V0 = 5`, `VF = 3` stores 4
into `V0` — the subtrahend is the freshly written borrow flag (1), not the
pre-instruction `VF` — whereas the claim predicts `(5 - 3) mod 256 = 2`. -/
theorem C7_counterexample_sub_reads_new_flag :
    (execute 0 c7s).V 0 = 4 ∧
    ((5 - 3 : Int) % 256).toNat = 2 ∧
    (execute 0 c7s).V 0 ≠ ((5 - 3 : Int) % 256).toNat := by
  decide

/-- C7 (amended): executing `SUB Vx,Vy` (`8xy5`) with destination `x ≠ 0xF`
sets `VF` to 1 iff the pre-instruction `Vx` exceeds the pre-instruction `Vy`,
and stores into `Vx` the wrapped difference of the pre-instruction `Vx` and
the value of `Vy` *after* the flag write — the pre-instruction `Vy` when
`y ≠ 0xF`, but the freshly written flag when `y = 0xF`. -/
theorem C7_sub_borrow_flag_then_difference (rnd : Nat) (s : Chip8) (b0 b1 : Nat)
    (h1 : s.halt = false) (h2 : s.panicState = false)
    (hb0 : memRead s s.PC = b0) (hb1 : memRead s (s.PC + 1) = b1)
    (hhi : b0 &&& 0xf0 = 0x80) (hlo : b1 &&& 0x0f = 0x5) (hx : b0 &&& 0x0f ≠ 0xf) :
    (execute rnd s).V 0xf =
      (if s.V (b0 &&& 0x0f) > s.V ((b1 &&& 0xf0) >>> 0x4) then 1 else 0) ∧
    (execute rnd s).V (b0 &&& 0x0f) =
      toUint8 ((s.V (b0 &&& 0x0f) : Int) -
        (if (b1 &&& 0xf0) >>> 0x4 = 15
         then (if s.V (b0 &&& 0x0f) > s.V ((b1 &&& 0xf0) >>> 0x4) then 1 else 0)
         else s.V ((b1 &&& 0xf0) >>> 0x4))) ∧
    (execute rnd s).PC = s.PC + 2 := by
  rw [execute_running rnd s h1 h2, hb0, hb1,
    execOp_eq_SUB rnd b0 b1 _ (decode_sub8 b0 b1 hhi hlo), if_neg hx]
  refine ⟨?_, ?_, ?_⟩
  · rw [setV_V_ne _ _ _ _ (Ne.symm hx), setV_V_same]
    split <;> rfl
  · rw [setV_V_same, toUint8_mod]
    congr 2
    · rw [setV_V_ne _ _ _ _ hx]
    · by_cases hy : (b1 &&& 0xf0) >>> 0x4 = 15
      · rw [if_pos hy, hy, setV_V_same]
        split <;> rfl
      · rw [if_neg hy, setV_V_ne _ _ _ _ hy]
  · simp

lemma drwStep_memory (Vx Vy : Nat) (s : Chip8) (p : Nat × Nat) :
    (drwStep Vx Vy s p).memory = s.memory := by
  unfold drwStep
  dsimp only
  split <;> split <;> rfl

lemma drwStep_I (Vx Vy : Nat) (s : Chip8) (p : Nat × Nat) :
    (drwStep Vx Vy s p).I = s.I := by
  unfold drwStep
  dsimp only
  split <;> split <;> rfl

lemma drwStep_PC (Vx Vy : Nat) (s : Chip8) (p : Nat × Nat) :
    (drwStep Vx Vy s p).PC = s.PC := by
  unfold drwStep
  dsimp only
  split <;> split <;> rfl

lemma drwStep_SP (Vx Vy : Nat) (s : Chip8) (p : Nat × Nat) :
    (drwStep Vx Vy s p).SP = s.SP := by
  unfold drwStep
  dsimp only
  split <;> split <;> rfl

lemma drwStep_stack (Vx Vy : Nat) (s : Chip8) (p : Nat × Nat) :
    (drwStep Vx Vy s p).stack = s.stack := by
  unfold drwStep
  dsimp only
  split <;> split <;> rfl

lemma drwStep_halt (Vx Vy : Nat) (s : Chip8) (p : Nat × Nat) :
    (drwStep Vx Vy s p).halt = s.halt := by
  unfold drwStep
  dsimp only
  split <;> split <;> rfl

lemma drwStep_panicState (Vx Vy : Nat) (s : Chip8) (p : Nat × Nat) :
    (drwStep Vx Vy s p).panicState = s.panicState := by
  unfold drwStep
  dsimp only
  split <;> split <;> rfl

lemma drwStep_V_ne (Vx Vy : Nat) (s : Chip8) (p : Nat × Nat) (j : Nat) (hj : j ≠ 15) :
    (drwStep Vx Vy s p).V j = s.V j := by
  unfold drwStep
  dsimp only
  split <;> split
  all_goals first
    | rfl
    | (rw [setV_V_ne _ _ _ _ hj]; rfl)

/-- One blit iteration agrees with the ghost framebuffer/collision fold, and
its effect on `V 15` is: set to 1 on a hit, untouched otherwise. -/
lemma drwStep_corr (Vx Vy : Nat) (s : Chip8) (p : Nat × Nat) (b : Bool) (v0 : Nat)
    (hv : s.V 15 = if b then 1 else v0) :
    (drwStep Vx Vy s p).frameBuffer =
      (drwStepFB Vx Vy s.memory s.I (s.frameBuffer, b) p).1 ∧
    (drwStep Vx Vy s p).V 15 =
      (if (drwStepFB Vx Vy s.memory s.I (s.frameBuffer, b) p).2 then 1 else v0) := by
  unfold drwStep drwStepFB fbRead memRead fbWrite
  dsimp only
  by_cases hc : drwHit (fbReadF s.frameBuffer (Vy * 64 + Vx + (7 - p.2) + p.1 * 64))
      (if memReadF s.memory (s.I + p.1) &&& 2 ^ p.2 = 2 ^ p.2 then 1 else 0) = true
  · rw [if_pos hc, hc]
    exact ⟨rfl, by rw [setV_V_same]; simp⟩
  · rw [Bool.not_eq_true] at hc
    rw [hc]
    exact ⟨rfl, hv⟩

/-- Folding the blit step over any iteration list: every state component other
than the framebuffer and `V 15` is preserved; the framebuffer follows the
ghost fold; and `V 15` is 1 if a hit has occurred (in the ghost fold) and the
initial value `v0` otherwise. -/
lemma drw_fold_spec (Vx Vy : Nat) (L : List (Nat × Nat)) :
    ∀ (s : Chip8) (b : Bool) (v0 : Nat), s.V 15 = (if b then 1 else v0) →
      ((L.foldl (drwStep Vx Vy) s).memory = s.memory ∧
       (L.foldl (drwStep Vx Vy) s).I = s.I ∧
       (L.foldl (drwStep Vx Vy) s).PC = s.PC ∧
       (L.foldl (drwStep Vx Vy) s).SP = s.SP ∧
       (L.foldl (drwStep Vx Vy) s).stack = s.stack ∧
       (L.foldl (drwStep Vx Vy) s).halt = s.halt ∧
       (L.foldl (drwStep Vx Vy) s).panicState = s.panicState) ∧
      (∀ j, j ≠ 15 → (L.foldl (drwStep Vx Vy) s).V j = s.V j) ∧
      (L.foldl (drwStep Vx Vy) s).frameBuffer =
        (L.foldl (drwStepFB Vx Vy s.memory s.I) (s.frameBuffer, b)).1 ∧
      (L.foldl (drwStep Vx Vy) s).V 15 =
        (if (L.foldl (drwStepFB Vx Vy s.memory s.I) (s.frameBuffer, b)).2 then 1 else v0) := by
  induction L with
  | nil =>
      intro s b v0 hv
      exact ⟨⟨rfl, rfl, rfl, rfl, rfl, rfl, rfl⟩, fun j _ => rfl, rfl, hv⟩
  | cons p L ih =>
      intro s b v0 hv
      have hc := drwStep_corr Vx Vy s p b v0 hv
      have hih := ih (drwStep Vx Vy s p)
        (drwStepFB Vx Vy s.memory s.I (s.frameBuffer, b) p).2 v0 hc.2
      rw [drwStep_memory, drwStep_I, hc.1, Prod.mk.eta] at hih
      simp only [List.foldl_cons]
      refine ⟨⟨?_, ?_, ?_, ?_, ?_, ?_, ?_⟩, ?_, ?_, ?_⟩
      · exact hih.1.1
      · exact hih.1.2.1
      · exact hih.1.2.2.1.trans (drwStep_PC Vx Vy s p)
      · exact hih.1.2.2.2.1.trans (drwStep_SP Vx Vy s p)
      · exact hih.1.2.2.2.2.1.trans (drwStep_stack Vx Vy s p)
      · exact hih.1.2.2.2.2.2.1.trans (drwStep_halt Vx Vy s p)
      · exact hih.1.2.2.2.2.2.2.trans (drwStep_panicState Vx Vy s p)
      · exact fun j hj => (hih.2.1 j hj).trans (drwStep_V_ne Vx Vy s p j hj)
      · exact hih.2.2.1
      · exact hih.2.2.2

lemma drwRun_panicState (Vx Vy n : Nat) (s : Chip8) :
    (drwRun Vx Vy n s).panicState = s.panicState :=
  (drw_fold_spec Vx Vy (drwPairs n) s false (s.V 15) rfl).1.2.2.2.2.2.2

/-- C8: for every execution of `DRW Vx,Vy,n` in the running state, the flag
register afterwards is 1 when the blit drew a set sprite bit onto an
already-set pixel (erasing it), and is otherwise exactly its value from
before the draw — it is never zeroed by a collision-free draw. -/
theorem C8_drw_collision_flag (rnd : Nat) (s : Chip8) (b0 b1 : Nat)
    (h1 : s.halt = false) (h2 : s.panicState = false)
    (hb0 : memRead s s.PC = b0) (hb1 : memRead s (s.PC + 1) = b1)
    (hhi : b0 &&& 0xf0 = 0xd0) :
    (execute rnd s).V 0xf =
      (if drwCollides s.memory s.I s.frameBuffer (s.V (b0 &&& 0x0f))
            (s.V ((b1 &&& 0xf0) >>> 0x4)) (b1 &&& 0x0f)
       then 1 else s.V 0xf) := by
  rw [execute_running rnd s h1 h2, hb0, hb1,
    execOp_eq_DRW rnd b0 b1 _ (decode_drw b0 b1 hhi)]
  exact (drw_fold_spec (s.V (b0 &&& 0x0f)) (s.V ((b1 &&& 0xf0) >>> 0x4))
    (drwPairs (b1 &&& 0x0f)) { s with PC := s.PC + 2 } false (s.V 0xf) rfl).2.2.2

/-- Witness for C8: drawing a 1-row sprite from empty memory (`I = 0x300`)
collides with nothing, and the flag keeps its prior value 9. -/
theorem C8_witness : (execute 0 c8s).V 0xf = 9 := by
  have h := C8_drw_collision_flag 0 c8s 0xd0 0x11 rfl rfl (by decide) (by decide) (by decide)
  rw [h]
  decide

/-- Witness for C6: `ADD V0,V1` with `V0=0xFF, V1=0x01` yields `V0 = 0` with
carry 1; with `V0=0x01, V1=0x01` it yields `V0 = 2` with carry 0. -/
theorem C6_witness :
    ((execute 0 c6a).V 0 = 0 ∧ (execute 0 c6a).V 0xf = 1) ∧
    ((execute 0 c6b).V 0 = 2 ∧ (execute 0 c6b).V 0xf = 0) := by
  have ha := C6_add_wraps_and_sets_carry 0 c6a 0x80 0x14 (by decide) (by decide)
    (by decide) (by decide) (by decide) (by decide) (by decide)
  have hb := C6_add_wraps_and_sets_carry 0 c6b 0x80 0x14 (by decide) (by decide)
    (by decide) (by decide) (by decide) (by decide) (by decide)
  exact ⟨⟨ha.1.trans (by decide), ha.2.1.trans (by decide)⟩,
    ⟨hb.1.trans (by decide), hb.2.1.trans (by decide)⟩⟩

/-- Witness for C7 (amended): `SUB V0,VF` with `V0 = 5`, `VF = 3` sets the
flag to 1 (5 > 3) and stores `5 - 1 = 4` (the subtrahend is the new flag). -/
theorem C7_witness :
    (execute 0 c7s).V 0xf = 1 ∧ (execute 0 c7s).V 0 = 4 ∧
    (execute 0 c7s).PC = 0x202 := by
  have h := C7_sub_borrow_flag_then_difference 0 c7s 0x80 0xf5 (by decide) (by decide)
    (by decide) (by decide) (by decide) (by decide) (by decide)
  exact ⟨h.1.trans (by decide), h.2.1.trans (by decide), h.2.2.trans (by decide)⟩

/-- C3: the decoder is a total function of the two input bytes (it consults no
machine state and cannot fail), the all-zero pattern decodes to the synthetic
`ZERO` terminator, and every byte pair matching none of the specified
encodings decodes to `INVALID`. -/
theorem C3_decode_total_zero_invalid (b0 b1 : Nat) :
    (∃ m : Mnemonic, decode b0 b1 = m) ∧
    decode 0x0 0x0 = Mnemonic.ZERO ∧
    (b0 < 256 → b1 < 256 → knownEncoding b0 b1 = false →
      decode b0 b1 = Mnemonic.INVALID) := by
  refine ⟨⟨decode b0 b1, rfl⟩, by decide, fun _ _ h => ?_⟩
  have n00 : b0 &&& 0xf0 ≠ 0x00 := fun hc => by simp [knownEncoding, hc] at h
  have n10 : b0 &&& 0xf0 ≠ 0x10 := fun hc => by simp [knownEncoding, hc] at h
  have n20 : b0 &&& 0xf0 ≠ 0x20 := fun hc => by simp [knownEncoding, hc] at h
  have n30 : b0 &&& 0xf0 ≠ 0x30 := fun hc => by simp [knownEncoding, hc] at h
  have n40 : b0 &&& 0xf0 ≠ 0x40 := fun hc => by simp [knownEncoding, hc] at h
  have n60 : b0 &&& 0xf0 ≠ 0x60 := fun hc => by simp [knownEncoding, hc] at h
  have n70 : b0 &&& 0xf0 ≠ 0x70 := fun hc => by simp [knownEncoding, hc] at h
  have na0 : b0 &&& 0xf0 ≠ 0xa0 := fun hc => by simp [knownEncoding, hc] at h
  have nb0 : b0 &&& 0xf0 ≠ 0xb0 := fun hc => by simp [knownEncoding, hc] at h
  have nc0 : b0 &&& 0xf0 ≠ 0xc0 := fun hc => by simp [knownEncoding, hc] at h
  have nd0 : b0 &&& 0xf0 ≠ 0xd0 := fun hc => by simp [knownEncoding, hc] at h
  have n50 : ¬(b0 &&& 0xf0 = 0x50 ∧ b1 &&& 0x0f = 0x0) := fun hc => by
    simp [knownEncoding, hc.1, hc.2] at h
  have n90 : ¬(b0 &&& 0xf0 = 0x90 ∧ b1 &&& 0x0f = 0x0) := fun hc => by
    simp [knownEncoding, hc.1, hc.2] at h
  have n80 : ¬(b0 &&& 0xf0 = 0x80 ∧ b1 &&& 0x0f = 0x0) := fun hc => by
    simp [knownEncoding, hc.1, hc.2] at h
  have n81 : ¬(b0 &&& 0xf0 = 0x80 ∧ b1 &&& 0x0f = 0x1) := fun hc => by
    simp [knownEncoding, hc.1, hc.2] at h
  have n82 : ¬(b0 &&& 0xf0 = 0x80 ∧ b1 &&& 0x0f = 0x2) := fun hc => by
    simp [knownEncoding, hc.1, hc.2] at h
  have n83 : ¬(b0 &&& 0xf0 = 0x80 ∧ b1 &&& 0x0f = 0x3) := fun hc => by
    simp [knownEncoding, hc.1, hc.2] at h
  have n84 : ¬(b0 &&& 0xf0 = 0x80 ∧ b1 &&& 0x0f = 0x4) := fun hc => by
    simp [knownEncoding, hc.1, hc.2] at h
  have n85 : ¬(b0 &&& 0xf0 = 0x80 ∧ b1 &&& 0x0f = 0x5) := fun hc => by
    simp [knownEncoding, hc.1, hc.2] at h
  have n86 : ¬(b0 &&& 0xf0 = 0x80 ∧ b1 &&& 0x0f = 0x6) := fun hc => by
    simp [knownEncoding, hc.1, hc.2] at h
  have n87 : ¬(b0 &&& 0xf0 = 0x80 ∧ b1 &&& 0x0f = 0x7) := fun hc => by
    simp [knownEncoding, hc.1, hc.2] at h
  have n8e : ¬(b0 &&& 0xf0 = 0x80 ∧ b1 &&& 0x0f = 0xe) := fun hc => by
    simp [knownEncoding, hc.1, hc.2] at h
  have hz : b0 ≠ 0 := fun hc => n00 (by simp [hc])
  unfold decode
  rw [if_neg (by simp [jsNumEqBoolTrue]),
    if_neg (fun hc => hz hc.1), if_neg (fun hc => hz hc.1),
    if_neg n10, if_neg n20, if_neg n30, if_neg n40, if_neg n50,
    if_neg n60, if_neg n70,
    if_neg n80, if_neg n81, if_neg n82, if_neg n83, if_neg n84,
    if_neg n85, if_neg n86, if_neg n87, if_neg n8e,
    if_neg n90, if_neg na0, if_neg nb0, if_neg nc0, if_neg nd0,
    if_neg (fun hc => hz hc.1)]

/-- Witness for C3: the unimplemented byte pair `0xE09E` matches no listed
encoding and decodes to `INVALID`; `0x0000` decodes to the terminator. -/
theorem C3_witness :
    knownEncoding 0xe0 0x9e = false ∧ decode 0xe0 0x9e = Mnemonic.INVALID ∧
    decode 0x0 0x0 = Mnemonic.ZERO := by
  have h := C3_decode_total_zero_invalid 0xe0 0x9e
  exact ⟨by decide, h.2.2 (by decide) (by decide) (by decide), h.2.1⟩

/-- C5: whenever a running step panics (all four fatal classes — illegal
control transfer, stack-discipline violation, explicit `VF` destination, or
unrecognized opcode — reach `panic` and nothing else does), the step is
aborted atomically: the halt flag is forced, `PC` is left at the faulting
instruction, and the registers, index, stack pointer, stack, memory and
framebuffer are exactly as before the step. -/
theorem C5_fatal_conditions_abort_atomically (rnd : Nat) (s : Chip8)
    (h1 : s.halt = false) (h2 : s.panicState = false)
    (h3 : (execute rnd s).panicState = true) :
    (execute rnd s).halt = true ∧
    (execute rnd s).PC = s.PC ∧
    (execute rnd s).V = s.V ∧
    (execute rnd s).I = s.I ∧
    (execute rnd s).SP = s.SP ∧
    (execute rnd s).stack = s.stack ∧
    (execute rnd s).memory = s.memory ∧
    (execute rnd s).frameBuffer = s.frameBuffer := by
  rw [execute_running rnd s h1 h2] at h3 ⊢
  unfold execOp at h3 ⊢
  revert h3
  split <;> intro h3 <;> (try split_ifs at h3 ⊢) <;>
    first
      | (exfalso; simp [drwRun_panicState, h2] at h3; done)
      | (simp [panic])

/-- Witness for C5: `LD VF,0x05` (bytes `0x6F 0x05`) is fatal and leaves every
state component, `VF` included, exactly as before the step. -/
theorem C5_witness :
    (execute 0 c5s).halt = true ∧
    (execute 0 c5s).PC = c5s.PC ∧
    (execute 0 c5s).V = c5s.V ∧
    (execute 0 c5s).I = c5s.I ∧
    (execute 0 c5s).SP = c5s.SP ∧
    (execute 0 c5s).stack = c5s.stack ∧
    (execute 0 c5s).memory = c5s.memory ∧
    (execute 0 c5s).frameBuffer = c5s.frameBuffer :=
  C5_fatal_conditions_abort_atomically 0 c5s (by decide) (by decide) (by decide)

end Chip8Emu
